import Mathlib

/-!
Shallow embedding of the questionnaire bot (repository crawl-rag):
the question catalog and answer validator (`src/questions_manager.py`),
the per-user progress store (`src/db/db_manager.py`), and the
questionnaire state machine of `src/bot_from_llm.py`.

Modelling conventions:
* The store is modelled per user: one `UserRow`, the user's answer and
  photo records, and the single stored prompt-message id
  (table `user_messages` with `message_type = 'question'`).
  The user row always exists (it is created on first contact).
* Timestamps are replaced by list order: `answers` is append-only and
  `ORDER BY answered_at DESC LIMIT 1` selects the last matching element.
* Chat-transport calls (send, edit, delete) are modelled as always
  succeeding; each sent message receives a fresh increasing id
  (`nextMsgId`), matching Telegram's increasing message ids.
* The external classifier `switch_to_assistant_needed` is an external
  collaborator; its boolean verdict is carried on the text event.
* Python string primitives are modelled by executable functions over
  `String.data`: `str.strip` by `py_strip`, `str.lower` by `py_lower`
  (ASCII folding), `int(...)` by `py_int?`.
-/

/-- ASCII whitespace recognised by Python `str.strip` (space, tab,
newline, carriage return, vertical tab, form feed). -/
def is_py_space (c : Char) : Bool :=
  c = ' ' || c = '\t' || c = '\n' || c = '\r' || c = Char.ofNat 11 || c = Char.ofNat 12

/-- Python `str.strip`: drop leading and trailing whitespace. -/
def py_strip (s : String) : String :=
  String.mk (((s.data.dropWhile is_py_space).reverse.dropWhile is_py_space).reverse)

/-- Lower-case one ASCII letter. -/
def lower_char (c : Char) : Char :=
  if 65 ≤ c.toNat ∧ c.toNat ≤ 90 then Char.ofNat (c.toNat + 32) else c

/-- Python `str.lower`, restricted to ASCII folding (the accented
vocabulary entries below are already stored lower-case). -/
def py_lower (s : String) : String :=
  String.mk (s.data.map lower_char)

/-- One decimal digit. -/
def digit_val (c : Char) : Option Nat :=
  if 48 ≤ c.toNat ∧ c.toNat ≤ 57 then some (c.toNat - 48) else none

/-- A non-empty all-digit run, as a number. -/
def parse_digits (cs : List Char) : Option Nat :=
  if cs.isEmpty then none
  else
    cs.foldl
      (fun acc c =>
        match acc, digit_val c with
        | some a, some d => some (10 * a + d)
        | _, _ => none)
      (some 0)

/-- Python `int(...)` on an already-stripped string: an optional sign
followed by decimal digits (underscore digit grouping is not modelled). -/
def py_int? (s : String) : Option Int :=
  match s.data with
  | '-' :: rest => (parse_digits rest).map (fun n => -(n : Int))
  | '+' :: rest => (parse_digits rest).map (fun n => (n : Int))
  | cs => (parse_digits cs).map (fun n => (n : Int))

/-- Question types, from `questions_manager.QuestionType`. -/
inductive QuestionType where
  | text
  | choice
  | scale
  | yes_no
  | photo
deriving DecidableEq, Repr

/-- A question definition, from the `questions_manager.Question` dataclass
(field defaults as in the dataclass). -/
structure Question where
  index : Nat
  text : String
  question_type : QuestionType := QuestionType.text
  choices : Option (List String) := none
  scale_min : Int := 1
  scale_max : Int := 10
  required : Bool := true
  has_followup : Bool := false
  followup_text : Option String := none
deriving DecidableEq, Repr

/-- The loaded catalog: an ordered list of questions (`QuestionManager.questions`). -/
abbrev Catalog := List Question

/-- `QuestionManager.get_question`: index lookup with a range check. -/
def get_question (catalog : Catalog) (index : Nat) : Option Question :=
  catalog[index]?

/-- `QuestionManager.get_total_questions`. -/
def get_total_questions (catalog : Catalog) : Nat :=
  catalog.length

/-- Python truthiness of `question.choices` (`None` and `[]` are falsy):
the list of choices, empty when absent. -/
def choices_list (q : Question) : List String :=
  q.choices.getD []

/-- The affirmative vocabulary of the YES_NO branch of
`QuestionManager.validate_answer` (`['ano', 'yes', 'y', '1', 'pravda', 'true', 'áno']`). -/
def affirm_words : List String :=
  ["ano", "yes", "y", "1", "pravda", "true", "áno"]

/-- The negative vocabulary of the YES_NO branch of
`QuestionManager.validate_answer` (`['ne', 'no', 'n', '0', 'nepravda', 'false', 'nie']`). -/
def negative_words : List String :=
  ["ne", "no", "n", "0", "nepravda", "false", "nie"]

/-- Case-insensitive exact-text matching loop of the CHOICE branch of
`QuestionManager.validate_answer`. -/
def match_choice_text (choices : List String) (answer : String) : Bool × String :=
  match choices.find? (fun choice => py_lower answer == py_lower choice) with
  | some choice => (true, choice)
  | none =>
      (false, "Prosím, vyberte číslo od 1 do " ++ toString choices.length
        ++ " nebo napište jednu z možností")

/-- CHOICE branch of `QuestionManager.validate_answer`: a 1-based numeral
selecting a choice, otherwise case-insensitive text matching. -/
def validate_choice (choices : List String) (answer : String) : Bool × String :=
  match py_int? answer with
  | some choice_num =>
      if 1 ≤ choice_num ∧ choice_num ≤ (choices.length : Int) then
        (true, choices.getD (choice_num.toNat - 1) "")
      else
        match_choice_text choices answer
  | none => match_choice_text choices answer

/-- SCALE branch of `QuestionManager.validate_answer`. -/
def validate_scale (q : Question) (answer : String) : Bool × String :=
  let reject := "Prosím, zadejte číslo od " ++ toString q.scale_min
      ++ " do " ++ toString q.scale_max
  match py_int? answer with
  | some scale_value =>
      if q.scale_min ≤ scale_value ∧ scale_value ≤ q.scale_max then
        (true, toString scale_value)
      else
        (false, reject)
  | none => (false, reject)

/-- The per-question body of `QuestionManager.validate_answer`
(everything after the question lookup), mirroring the if/elif chain:
PHOTO, then CHOICE (guarded by truthiness of `question.choices`),
then SCALE, then YES_NO, then the TEXT fallback. -/
def validate_question (q : Question) (answer0 : String) (is_photo : Bool) : Bool × String :=
  if q.question_type = QuestionType.photo then
    if is_photo then (true, "photo_uploaded")
    else (false, "Prosím, nahrajte fotografii")
  else
    let answer := py_strip answer0
    if q.question_type = QuestionType.choice ∧ choices_list q ≠ [] then
      validate_choice (choices_list q) answer
    else if q.question_type = QuestionType.scale then
      validate_scale q answer
    else if q.question_type = QuestionType.yes_no then
      let answer_lower := py_lower answer
      if answer_lower ∈ affirm_words then (true, "Ano")
      else if answer_lower ∈ negative_words then (true, "Ne")
      else (false, "Prosím, odpovězte 'Ano' nebo 'Ne'")
    else
      if answer.data.length = 0 then (false, "Prosím, zadejte odpověď")
      else (true, answer)

/-- `QuestionManager.validate_answer`: question lookup, then the
per-type validation. -/
def validate_answer (catalog : Catalog) (question_index : Nat) (answer : String)
    (is_photo : Bool) : Bool × String :=
  match get_question catalog question_index with
  | none => (false, "Otázka nenalezena")
  | some q => validate_question q answer is_photo

/-! ## The progress store (`db/db_manager.py`), per user -/

/-- The progress fields of a row of the `users` table. -/
structure UserRow where
  current_question_index : Nat
  waiting_for_followup : Bool
  followup_question_index : Option Nat
  questionnaire_completed : Bool
deriving DecidableEq, Repr

/-- Default progress values of a freshly inserted user row
(`create_or_update_user`: `VALUES (..., 0, FALSE, NULL, FALSE)`). -/
def initialUserRow : UserRow :=
  { current_question_index := 0
    waiting_for_followup := false
    followup_question_index := none
    questionnaire_completed := false }

/-- A row of the `answers` table (append-only; `answered_at` is list order). -/
structure AnswerRecord where
  question_index : Nat
  question_text : String
  answer_text : String
  answer_type : String
  file_id : Option String
  followup_text : Option String
deriving DecidableEq, Repr

/-- A row of the `photos` table (media reference only). -/
structure PhotoRecord where
  question_index : Nat
  file_id : String
deriving DecidableEq, Repr

/-- The store state for one user: the user row, the user's answers and
photos, and the stored id of the last interactive question message
(`user_messages` with `message_type = 'question'`). -/
structure DB where
  user : UserRow
  answers : List AnswerRecord
  photos : List PhotoRecord
  last_question_message : Option Nat
deriving DecidableEq, Repr

/-- The store state of a user on first contact. -/
def initialDB : DB :=
  { user := initialUserRow
    answers := []
    photos := []
    last_question_message := none }

/-- `DatabaseManager.create_or_update_user`: the upsert inserts default
progress values for a new user and, on conflict, updates only the name
fields; on the modelled per-user progress state it is the identity. -/
def create_or_update_user (db : DB) : DB :=
  db

/-- `DatabaseManager.save_answer`: insert the answer record, then bump
`current_question_index` to `question_index + 1` only where
`waiting_for_followup = FALSE`. -/
def save_answer (db : DB) (question_index : Nat) (question_text : String)
    (answer_text : String) (answer_type : String)
    (file_id : Option String := none) (followup_text : Option String := none) : DB :=
  let record : AnswerRecord :=
    { question_index := question_index
      question_text := question_text
      answer_text := answer_text
      answer_type := answer_type
      file_id := file_id
      followup_text := followup_text }
  { db with
    answers := db.answers ++ [record]
    user :=
      if db.user.waiting_for_followup then db.user
      else { db.user with current_question_index := question_index + 1 } }

/-- `DatabaseManager.save_photo`: insert into `photos`, insert an answer
record with text "Fotografie nahrána" and type `photo`, and set
`current_question_index` to `question_index + 1` unconditionally. -/
def save_photo (db : DB) (question_index : Nat) (question_text : String)
    (file_id : String) : DB :=
  let record : AnswerRecord :=
    { question_index := question_index
      question_text := question_text
      answer_text := "Fotografie nahrána"
      answer_type := "photo"
      file_id := some file_id
      followup_text := none }
  { db with
    photos := db.photos ++ [{ question_index := question_index, file_id := file_id }]
    answers := db.answers ++ [record]
    user := { db.user with current_question_index := question_index + 1 } }

/-- `DatabaseManager.set_waiting_for_followup`. -/
def set_waiting_for_followup (db : DB) (question_index : Nat) : DB :=
  { db with
    user := { db.user with
      waiting_for_followup := true
      followup_question_index := some question_index } }

/-- Helper for `save_followup_answer`: set `followup_text` on the most
recent (last inserted) answer record with the given question index
(`SELECT id ... ORDER BY answered_at DESC LIMIT 1` then `UPDATE`).
When no record matches, the list is unchanged. -/
def set_followup_on_last (records : List AnswerRecord) (question_index : Nat)
    (followup_text : String) : List AnswerRecord :=
  match records with
  | [] => []
  | r :: rs =>
      if rs.any (fun x => x.question_index = question_index) then
        r :: set_followup_on_last rs question_index followup_text
      else if r.question_index = question_index then
        { r with followup_text := some followup_text } :: rs
      else
        r :: rs

/-- `DatabaseManager.save_followup_answer`: attach the follow-up text to
the most recent answer record at that index, clear the waiting state. -/
def save_followup_answer (db : DB) (question_index : Nat) (followup_text : String) : DB :=
  { db with
    answers := set_followup_on_last db.answers question_index followup_text
    user := { db.user with
      waiting_for_followup := false
      followup_question_index := none } }

/-- `DatabaseManager.mark_questionnaire_completed`. -/
def mark_questionnaire_completed (db : DB) : DB :=
  { db with
    user := { db.user with
      questionnaire_completed := true
      waiting_for_followup := false
      followup_question_index := none } }

/-- `DatabaseManager.reset_user_progress`: delete the user's answers,
photos and stored messages, and zero the progress fields. -/
def reset_user_progress (db : DB) : DB :=
  { user := initialUserRow
    answers := []
    photos := []
    last_question_message := none }

/-- `DatabaseManager.save_user_message` for `message_type = 'question'`
(upsert of the single stored prompt-message id). -/
def save_user_message (db : DB) (message_id : Nat) : DB :=
  { db with last_question_message := some message_id }

/-- `DatabaseManager.get_user_last_message` for `message_type = 'question'`. -/
def get_user_last_message (db : DB) : Option Nat :=
  db.last_question_message

/-- `DatabaseManager.clear_user_messages` for `message_type = 'question'`. -/
def clear_user_messages (db : DB) : DB :=
  { db with last_question_message := none }

/-- The `skipped_text` aggregate of `DatabaseManager.get_statistics`:
`COUNT(*) FROM answers WHERE answer_type = 'text' AND answer_text = 'None'`. -/
def skipped_text_count (records : List AnswerRecord) : Nat :=
  (records.filter (fun r => r.answer_type == "text" && r.answer_text == "None")).length

/-- The `skipped_photos` aggregate of `DatabaseManager.get_statistics`:
`COUNT(*) FROM answers WHERE answer_type = 'photo' AND answer_text = 'None'`. -/
def skipped_photos_count (records : List AnswerRecord) : Nat :=
  (records.filter (fun r => r.answer_type == "photo" && r.answer_text == "None")).length

/-! ## The questionnaire state machine (`bot_from_llm.py`), per user -/

/-- The in-process per-user waiting sets of `SkinCareQuestionnaireBot`
(`waiting_for_answer`, `waiting_for_photo`, `waiting_for_followup`),
as membership flags for the modelled user. -/
structure Mem where
  waiting_for_answer : Bool
  waiting_for_photo : Bool
  waiting_for_followup : Bool
deriving DecidableEq, Repr

/-- All in-process waiting state cleared (`_clear_user_states`). -/
def clearedMem : Mem :=
  { waiting_for_answer := false
    waiting_for_photo := false
    waiting_for_followup := false }

/-- Outbound transport effects, recorded as a trace. -/
inductive Out where
  /-- A plain informational message (tagged with a short label). -/
  | message (label : String)
  /-- The rejection message for an invalid answer (`❌ {reason}`). -/
  | rejection (reason : String)
  /-- A question prompt for the given index (`_send_question`). -/
  | questionPrompt (index : Nat)
  /-- The follow-up elaboration prompt for the given question index. -/
  | followupPrompt (index : Nat)
  /-- The stale-interaction alert of `handle_callback_query`. -/
  | staleAlert
  /-- The completion message of `_complete_questionnaire`. -/
  | completionMessage
  /-- The "SWITCHING TO ASSISTANT" routing message. -/
  | assistantSwitch
  /-- The generic error message sent when a handler raises. -/
  | errorMessage
deriving DecidableEq, Repr

/-- The full machine state for one user: the durable store, the in-process
waiting flags, the next fresh transport message id, and the outbound trace. -/
structure BotState where
  db : DB
  mem : Mem
  nextMsgId : Nat
  out : List Out
deriving DecidableEq, Repr

/-- The machine state of a fresh user before any event. -/
def initialBotState : BotState :=
  { db := initialDB
    mem := clearedMem
    nextMsgId := 0
    out := [] }

/-- Send one outbound message: it receives the current fresh id and the
id counter advances. -/
def emit (s : BotState) (o : Out) : BotState :=
  { s with nextMsgId := s.nextMsgId + 1, out := s.out ++ [o] }

/-- `_complete_questionnaire`: mark completed, clear the in-process
waiting state and the stored prompt message, send the completion text. -/
def complete_questionnaire (s : BotState) : BotState :=
  let s :=
    { s with
      db := clear_user_messages (mark_questionnaire_completed s.db)
      mem := clearedMem }
  emit s Out.completionMessage

/-- `_send_question`: completion when the index runs past the catalog;
otherwise send the question (every question type carries an inline
keyboard, so the sent message id is always stored), then set the
in-process waiting flag by question type. -/
def send_question (catalog : Catalog) (s : BotState) (question_index : Nat) : BotState :=
  if question_index ≥ get_total_questions catalog then
    complete_questionnaire s
  else
    match get_question catalog question_index with
    | none => emit s Out.errorMessage
    | some q =>
        let sentId := s.nextMsgId
        let s := emit s (Out.questionPrompt question_index)
        let s := { s with db := save_user_message s.db sentId }
        let mem :=
          if q.question_type = QuestionType.photo then
            { s.mem with waiting_for_photo := true }
          else if q.question_type ≠ QuestionType.yes_no then
            { s.mem with waiting_for_answer := true }
          else s.mem
        { s with mem := mem }

/-- `_process_keyboard_answer`: save the answer, then either enter
follow-up wait (YES_NO, answer "Ano", `has_followup`) — sending and
storing the follow-up prompt — or advance to the next question. -/
def process_keyboard_answer (catalog : Catalog) (s : BotState) (question_index : Nat)
    (answer : String) : BotState :=
  match get_question catalog question_index with
  | none => emit s Out.errorMessage
  | some q =>
      let s := { s with db := save_answer s.db question_index q.text answer "text" }
      if q.question_type = QuestionType.yes_no ∧ answer = "Ano" ∧ q.has_followup then
        let s :=
          { s with
            db := set_waiting_for_followup s.db question_index
            mem := { s.mem with waiting_for_followup := true } }
        let sentId := s.nextMsgId
        let s := emit s (Out.followupPrompt question_index)
        { s with db := save_user_message s.db sentId }
      else
        send_question catalog s (question_index + 1)

/-- `_process_answer`: validate the free-text answer; on rejection send
the reason and change nothing, on acceptance save the canonical value,
clear `waiting_for_answer` and advance to the next question. -/
def process_answer (catalog : Catalog) (s : BotState) (question_index : Nat)
    (answer : String) : BotState :=
  let vr := validate_answer catalog question_index answer false
  if vr.1 = false then
    emit s (Out.rejection vr.2)
  else
    match get_question catalog question_index with
    | none => emit s Out.errorMessage
    | some q =>
        let s :=
          { s with
            db := save_answer s.db question_index q.text vr.2 "text"
            mem := { s.mem with waiting_for_answer := false } }
        let s := emit s (Out.message "answer saved")
        send_question catalog s (question_index + 1)

/-- `_handle_skip_text`: store the sentinel answer "None" of kind text,
clear `waiting_for_answer` and advance. -/
def handle_skip_text (catalog : Catalog) (s : BotState) (question_index : Nat) : BotState :=
  match get_question catalog question_index with
  | none => emit s Out.errorMessage
  | some q =>
      let s :=
        { s with
          db := save_answer s.db question_index q.text "None" "text"
          mem := { s.mem with waiting_for_answer := false } }
      let s := emit s (Out.message "question skipped")
      send_question catalog s (question_index + 1)

/-- `_handle_skip_photo`: store the sentinel answer "None" of kind photo,
clear `waiting_for_photo` and advance. -/
def handle_skip_photo (catalog : Catalog) (s : BotState) (question_index : Nat) : BotState :=
  match get_question catalog question_index with
  | none => emit s Out.errorMessage
  | some q =>
      let s :=
        { s with
          db := save_answer s.db question_index q.text "None" "photo"
          mem := { s.mem with waiting_for_photo := false } }
      let s := emit s (Out.message "photo skipped")
      send_question catalog s (question_index + 1)

/-- `_handle_skip_followup`: store the sentinel follow-up "None", clear
the waiting state and advance. -/
def handle_skip_followup (catalog : Catalog) (s : BotState) (question_index : Nat) : BotState :=
  let s :=
    { s with
      db := save_followup_answer s.db question_index "None"
      mem := { s.mem with waiting_for_followup := false } }
  let s := emit s (Out.message "followup skipped")
  send_question catalog s (question_index + 1)

/-- Callback payloads of the inline keyboards
(`start_questionnaire`, `continue_questionnaire`, `finish_questionnaire`,
`skip_photo_{i}`, `skip_followup_{i}`, `skip_text_{i}`, `yn_{i}_{yes|no}`). -/
inductive CallbackData where
  | start_questionnaire
  | continue_questionnaire
  | finish_questionnaire
  | skip_photo (index : Nat)
  | skip_followup (index : Nat)
  | skip_text (index : Nat)
  | yes_no (index : Nat) (yes : Bool)
deriving DecidableEq, Repr

/-- Whether the payload is guarded by the stale-message check of
`handle_callback_query` (`data.startswith(("yn_", "skip_"))`). -/
def isAnswerButton : CallbackData → Bool
  | CallbackData.skip_photo _ => true
  | CallbackData.skip_followup _ => true
  | CallbackData.skip_text _ => true
  | CallbackData.yes_no _ _ => true
  | _ => false

/-- The dispatch part of `handle_callback_query`, after the stale check. -/
def dispatch_callback (catalog : Catalog) (s : BotState) : CallbackData → BotState
  | CallbackData.start_questionnaire => send_question catalog s 0
  | CallbackData.continue_questionnaire =>
      send_question catalog s s.db.user.current_question_index
  | CallbackData.finish_questionnaire =>
      complete_questionnaire (emit s (Out.message "finish chosen"))
  | CallbackData.skip_photo i => handle_skip_photo catalog s i
  | CallbackData.skip_followup i => handle_skip_followup catalog s i
  | CallbackData.skip_text i => handle_skip_text catalog s i
  | CallbackData.yes_no i yes =>
      let answer_text := if yes then "Ano" else "Ne"
      process_keyboard_answer catalog (emit s (Out.message "answer stored")) i answer_text

/-- `handle_callback_query`: for answer/skip buttons, reject the press as
stale when a prompt-message id is on file and the pressed message id
differs from it; otherwise dispatch on the payload. -/
def handle_callback_query (catalog : Catalog) (s : BotState) (message_id : Nat)
    (data : CallbackData) : BotState :=
  if isAnswerButton data then
    match get_user_last_message s.db with
    | some current_message_id =>
        if message_id ≠ current_message_id then
          emit s Out.staleAlert
        else
          dispatch_callback catalog s data
    | none => dispatch_callback catalog s data
  else
    dispatch_callback catalog s data

/-- The tail of `handle_message` from the `waiting_for_answer` membership
check on (also reached by fall-through when `waiting_for_followup` is set
but `followup_question_index` is NULL). -/
def handle_message_rest (catalog : Catalog) (s : BotState) (message_text : String)
    (route : Bool) : BotState :=
  if s.mem.waiting_for_answer then
    match get_question catalog s.db.user.current_question_index with
    | none => emit s Out.errorMessage
    | some _ =>
        if route then emit s Out.assistantSwitch
        else process_answer catalog s s.db.user.current_question_index message_text
  else if s.mem.waiting_for_photo then
    emit s Out.assistantSwitch
  else
    emit s Out.assistantSwitch

/-- `handle_message` (free text without a slash command): completed users
and users who never started are routed to the assistant; a user in
follow-up wait has the follow-up recorded; a user in `waiting_for_answer`
has the text validated as an answer (after the external-router verdict
`route`); anything else is routed to the assistant. A handler exception
(missing question, or a `None` follow-up text concatenated in the
classifier context) is caught by the surrounding `try` and leaves the
state unchanged. -/
def handle_message (catalog : Catalog) (s : BotState) (body : String)
    (route : Bool) : BotState :=
  let s := { s with db := create_or_update_user s.db }
  let message_text := py_strip body
  let cur := s.db.user.current_question_index
  if s.db.user.questionnaire_completed then
    emit s Out.assistantSwitch
  else if cur == 0 && !s.mem.waiting_for_answer && !s.mem.waiting_for_photo
      && !s.db.user.waiting_for_followup then
    emit s Out.assistantSwitch
  else if s.db.user.waiting_for_followup then
    if cur = 0 then
      emit s Out.errorMessage
    else
      match get_question catalog (cur - 1) with
      | none => emit s Out.errorMessage
      | some q =>
          match q.followup_text with
          | none => emit s Out.errorMessage
          | some _ =>
              if route then emit s Out.assistantSwitch
              else
                match s.db.user.followup_question_index with
                | some followup_question_index =>
                    let s :=
                      { s with
                        db := save_followup_answer s.db followup_question_index message_text
                        mem := { s.mem with waiting_for_followup := false } }
                    let s := emit s (Out.message "followup saved")
                    send_question catalog s (followup_question_index + 1)
                | none => handle_message_rest catalog s message_text route
  else
    handle_message_rest catalog s message_text route

/-- `handle_photo`: rejected after completion or when the current question
is not a PHOTO question; otherwise the best-resolution variant is stored
and the machine advances. -/
def handle_photo (catalog : Catalog) (s : BotState) (file_id : String) : BotState :=
  if s.db.user.questionnaire_completed then
    emit s (Out.message "already completed")
  else
    let cur := s.db.user.current_question_index
    match get_question catalog cur with
    | none => emit s (Out.message "no photo expected")
    | some q =>
        if q.question_type ≠ QuestionType.photo then
          emit s (Out.message "no photo expected")
        else
          let s :=
            { s with
              db := save_photo s.db cur q.text file_id
              mem := { s.mem with waiting_for_photo := false } }
          let s := emit s (Out.message "photo saved")
          send_question catalog s (cur + 1)

/-- `handle_restart` (`/restart`): reset the durable progress and clear
the in-process state. -/
def handle_restart (s : BotState) : BotState :=
  let s :=
    { s with
      db := clear_user_messages (reset_user_progress s.db)
      mem := clearedMem }
  emit s (Out.message "restarted")

/-- Inbound events for one user. A text event carries the external
classifier's verdict for this message (`switch_to_assistant_needed`). -/
inductive Event where
  | textMsg (body : String) (route : Bool)
  | photoMsg (file_id : String)
  | buttonPress (message_id : Nat) (data : CallbackData)
  | restart
deriving DecidableEq, Repr

/-- One transition of the questionnaire state machine. -/
def step (catalog : Catalog) (s : BotState) : Event → BotState
  | Event.textMsg body route => handle_message catalog s body route
  | Event.photoMsg file_id => handle_photo catalog s file_id
  | Event.buttonPress message_id data => handle_callback_query catalog s message_id data
  | Event.restart => handle_restart s

/-- Run a sequence of inbound events. -/
def run (catalog : Catalog) (s : BotState) (events : List Event) : BotState :=
  events.foldl (step catalog) s

/-! ## Basic facts about the transitions -/

theorem emit_db (s : BotState) (o : Out) : (emit s o).db = s.db := rfl

theorem emit_mem (s : BotState) (o : Out) : (emit s o).mem = s.mem := rfl

theorem complete_questionnaire_cur (s : BotState) :
    (complete_questionnaire s).db.user.current_question_index
      = s.db.user.current_question_index := rfl

theorem complete_questionnaire_wff (s : BotState) :
    (complete_questionnaire s).db.user.waiting_for_followup = false := rfl

theorem complete_questionnaire_answers (s : BotState) :
    (complete_questionnaire s).db.answers = s.db.answers := rfl

theorem send_question_cur (catalog : Catalog) (s : BotState) (j : Nat) :
    (send_question catalog s j).db.user.current_question_index
      = s.db.user.current_question_index := by
  unfold send_question
  split
  · exact complete_questionnaire_cur s
  · cases hq : get_question catalog j <;>
      simp [hq, emit, save_user_message]

theorem send_question_answers (catalog : Catalog) (s : BotState) (j : Nat) :
    (send_question catalog s j).db.answers = s.db.answers := by
  unfold send_question
  split
  · exact complete_questionnaire_answers s
  · cases hq : get_question catalog j <;>
      simp [hq, emit, save_user_message]

theorem send_question_wff (catalog : Catalog) (s : BotState) (j : Nat)
    (h : s.db.user.waiting_for_followup = false) :
    (send_question catalog s j).db.user.waiting_for_followup = false := by
  unfold send_question
  split
  · exact complete_questionnaire_wff s
  · cases hq : get_question catalog j <;>
      simp [hq, emit, save_user_message, h]

theorem save_followup_answer_cur (db : DB) (i : Nat) (t : String) :
    (save_followup_answer db i t).user.current_question_index
      = db.user.current_question_index := rfl

/-! ## Claim C7 -/

/-- Claim C7: `save_answer` always inserts the answer record, and bumps
`current_question_index` to `question_index + 1` exactly when
`waiting_for_followup` is false; when it is true the index (and the rest
of the user row) is left unchanged while the answer is still recorded. -/
theorem claim_C7 (db : DB) (question_index : Nat)
    (question_text answer_text answer_type : String)
    (file_id followup_text : Option String) :
    (save_answer db question_index question_text answer_text answer_type
        file_id followup_text).answers
      = db.answers ++
        [{ question_index := question_index, question_text := question_text,
           answer_text := answer_text, answer_type := answer_type,
           file_id := file_id, followup_text := followup_text }] ∧
    (save_answer db question_index question_text answer_text answer_type
        file_id followup_text).user.current_question_index
      = (if db.user.waiting_for_followup then db.user.current_question_index
         else question_index + 1) ∧
    (save_answer db question_index question_text answer_text answer_type
        file_id followup_text).user.waiting_for_followup
      = db.user.waiting_for_followup ∧
    (save_answer db question_index question_text answer_text answer_type
        file_id followup_text).user.followup_question_index
      = db.user.followup_question_index ∧
    (save_answer db question_index question_text answer_text answer_type
        file_id followup_text).user.questionnaire_completed
      = db.user.questionnaire_completed := by
  unfold save_answer
  by_cases h : db.user.waiting_for_followup <;> simp [h]

/-! ## Claim C5 -/

/-- Claim C5: resetting a user's progress (the `/restart` transition,
allowed in every state) deletes all answer records and media references
and zeroes the `UserProgress` row; the operation is idempotent on the
durable store and the in-process state. -/
theorem claim_C5 (catalog : Catalog) (s : BotState) :
    (step catalog s Event.restart).db.answers = [] ∧
    (step catalog s Event.restart).db.photos = [] ∧
    (step catalog s Event.restart).db.user.current_question_index = 0 ∧
    (step catalog s Event.restart).db.user.waiting_for_followup = false ∧
    (step catalog s Event.restart).db.user.followup_question_index = none ∧
    (step catalog s Event.restart).db.user.questionnaire_completed = false ∧
    (step catalog s Event.restart).db.last_question_message = none ∧
    (step catalog s Event.restart).mem = clearedMem ∧
    (step catalog (step catalog s Event.restart) Event.restart).db
      = (step catalog s Event.restart).db ∧
    (step catalog (step catalog s Event.restart) Event.restart).mem
      = (step catalog s Event.restart).mem :=
  ⟨rfl, rfl, rfl, rfl, rfl, rfl, rfl, rfl, rfl, rfl⟩

/-! ## Claim C8 -/

/-- Store states reachable through the Progress Store operations
(creation with default values, then any sequence of `save_answer`,
`save_photo`, `set_waiting_for_followup`, `save_followup_answer`,
`mark_questionnaire_completed`, `reset_user_progress`, and the
prompt-message bookkeeping). -/
inductive ReachableDB : DB → Prop where
  | init : ReachableDB initialDB
  | create (db : DB) (h : ReachableDB db) : ReachableDB (create_or_update_user db)
  | save (db : DB) (i : Nat) (qt a ty : String) (fid ft : Option String)
      (h : ReachableDB db) : ReachableDB (save_answer db i qt a ty fid ft)
  | photo (db : DB) (i : Nat) (qt fid : String)
      (h : ReachableDB db) : ReachableDB (save_photo db i qt fid)
  | enter (db : DB) (i : Nat) (h : ReachableDB db) :
      ReachableDB (set_waiting_for_followup db i)
  | followup (db : DB) (i : Nat) (t : String) (h : ReachableDB db) :
      ReachableDB (save_followup_answer db i t)
  | completed (db : DB) (h : ReachableDB db) :
      ReachableDB (mark_questionnaire_completed db)
  | reset (db : DB) (h : ReachableDB db) : ReachableDB (reset_user_progress db)
  | storeMsg (db : DB) (m : Nat) (h : ReachableDB db) :
      ReachableDB (save_user_message db m)
  | clearMsg (db : DB) (h : ReachableDB db) : ReachableDB (clear_user_messages db)

/-- Claim C8: in every store state reachable through the Progress Store
operations, `waiting_for_followup` is true exactly when
`followup_question_index` is set. -/
theorem claim_C8 (db : DB) (h : ReachableDB db) :
    db.user.waiting_for_followup = true ↔ db.user.followup_question_index ≠ none := by
  induction h with
  | init => simp [initialDB, initialUserRow]
  | create db h ih => simpa [create_or_update_user] using ih
  | save db i qt a ty fid ft h ih =>
      unfold save_answer
      by_cases hw : db.user.waiting_for_followup <;> simpa [hw] using ih
  | photo db i qt fid h ih => simpa [save_photo] using ih
  | enter db i h ih => simp [set_waiting_for_followup]
  | followup db i t h ih => simp [save_followup_answer]
  | completed db h ih => simp [mark_questionnaire_completed]
  | reset db h ih => simp [reset_user_progress, initialUserRow]
  | storeMsg db m h ih => simpa [save_user_message] using ih
  | clearMsg db h ih => simpa [clear_user_messages] using ih

/-- Witness for claim C8 at a concrete reachable state: an answered
question followed by entry into follow-up wait. -/
theorem claim_C8_witness :
    (set_waiting_for_followup (save_answer initialDB 0 "q" "Ano" "text" none none)
        0).user.waiting_for_followup = true
      ↔ (set_waiting_for_followup (save_answer initialDB 0 "q" "Ano" "text" none none)
        0).user.followup_question_index ≠ none :=
  claim_C8 _
    (ReachableDB.enter _ 0 (ReachableDB.save _ 0 "q" "Ano" "text" none none ReachableDB.init))

/-! ## Claim C2 -/

/-- Claim C2: a skip request for question `i` while awaiting its answer
records the sentinel-skip "None" of kind text at index `i` and advances
`current_question_index` to `i + 1`; it never enters follow-up wait
(this holds for every question, in particular for YES_NO questions with
`has_followup = true`, since the skip path never consults the
affirmative branch). -/
theorem claim_C2 (catalog : Catalog) (s : BotState) (question_index : Nat) (q : Question)
    (hq : get_question catalog question_index = some q)
    (hw : s.db.user.waiting_for_followup = false) :
    (handle_skip_text catalog s question_index).db.answers
      = s.db.answers ++ [⟨question_index, q.text, "None", "text", none, none⟩] ∧
    (handle_skip_text catalog s question_index).db.user.current_question_index
      = question_index + 1 ∧
    (handle_skip_text catalog s question_index).db.user.waiting_for_followup = false := by
  unfold handle_skip_text
  rw [hq]
  refine ⟨?_, ?_, ?_⟩
  · rw [send_question_answers]
    simp [emit, save_answer]
  · rw [send_question_cur]
    simp [emit, save_answer, hw]
  · apply send_question_wff
    simp [emit, save_answer, hw]

/-- Witness for claim C2: skipping a YES_NO question with
`has_followup = true` records "None" and advances without follow-up. -/
def c2_catalog : Catalog :=
  [ { index := 0, text := "smoker", question_type := QuestionType.yes_no,
      has_followup := true, followup_text := some "which brand" },
    { index := 1, text := "routine" } ]

theorem claim_C2_witness :
    (handle_skip_text c2_catalog initialBotState 0).db.answers
      = [] ++ [⟨0, "smoker", "None", "text", none, none⟩] ∧
    (handle_skip_text c2_catalog initialBotState 0).db.user.current_question_index = 1 ∧
    (handle_skip_text c2_catalog initialBotState 0).db.user.waiting_for_followup = false :=
  claim_C2 c2_catalog initialBotState 0
    { index := 0, text := "smoker", question_type := QuestionType.yes_no,
      has_followup := true, followup_text := some "which brand" }
    (by decide) rfl

/-! ## Claim C3 -/

/-- Claim C3: while awaiting a free-text answer (not completed, not in
follow-up wait), a message the validator rejects leaves the durable
store and the in-process state entirely unchanged — no answer record is
written — and the rejection reason is surfaced to the user. (The
handler strips the inbound text before validating, hence `py_strip`.) -/
theorem claim_C3 (catalog : Catalog) (s : BotState) (body : String) (q : Question)
    (hc : s.db.user.questionnaire_completed = false)
    (hwa : s.mem.waiting_for_answer = true)
    (hwf : s.db.user.waiting_for_followup = false)
    (hq : get_question catalog s.db.user.current_question_index = some q)
    (hv : (validate_answer catalog s.db.user.current_question_index
        (py_strip body) false).1 = false) :
    (step catalog s (Event.textMsg body false)).db = s.db ∧
    (step catalog s (Event.textMsg body false)).mem = s.mem ∧
    (step catalog s (Event.textMsg body false)).out
      = s.out ++ [Out.rejection (validate_answer catalog
          s.db.user.current_question_index (py_strip body) false).2] := by
  simp [step, handle_message, handle_message_rest, process_answer,
    create_or_update_user, emit, hc, hwa, hwf, hq, hv]

/-- A one-question SCALE catalog and the state after the questionnaire
has been started (question 0 prompted, awaiting its answer). -/
def c3_catalog : Catalog :=
  [ { index := 0, text := "age", question_type := QuestionType.scale,
      scale_min := 1, scale_max := 120 } ]

def c3_state : BotState :=
  run c3_catalog initialBotState [Event.buttonPress 100 CallbackData.start_questionnaire]

/-- Witness for claim C3: the user at `AWAITING_ANSWER(0)` sends "abc"
for the SCALE question; the message is rejected and nothing changes. -/
theorem claim_C3_witness :
    (step c3_catalog c3_state (Event.textMsg "abc" false)).db = c3_state.db ∧
    (step c3_catalog c3_state (Event.textMsg "abc" false)).mem = c3_state.mem ∧
    (step c3_catalog c3_state (Event.textMsg "abc" false)).out
      = c3_state.out ++ [Out.rejection (validate_answer c3_catalog
          c3_state.db.user.current_question_index (py_strip "abc") false).2] :=
  claim_C3 c3_catalog c3_state "abc"
    { index := 0, text := "age", question_type := QuestionType.scale,
      scale_min := 1, scale_max := 120 }
    (by decide) (by decide) (by decide) (by decide) (by decide)

/-! ## Claim C6 -/

/-- The two YES_NO vocabularies are disjoint. -/
theorem mem_negative_not_affirm (t : String) (h : t ∈ negative_words) :
    t ∉ affirm_words := by
  simp only [negative_words, List.mem_cons, List.not_mem_nil, or_false] at h
  rcases h with rfl | rfl | rfl | rfl | rfl | rfl | rfl <;> decide

/-- Claim C6: for every YES_NO question, an input whose stripped,
case-folded form is in the affirmative vocabulary (which contains
"yes", "ano", "y", "1", "true") is accepted with canonical value "Ano";
one in the negative vocabulary (containing "no", "ne", "n", "0",
"false") is accepted with canonical value "Ne"; every other input is
rejected; and an accepted output is always one of the two canonical
values, never the raw input. -/
theorem claim_C6 (q : Question) (input : String)
    (ht : q.question_type = QuestionType.yes_no) :
    (py_lower (py_strip input) ∈ affirm_words →
        validate_question q input false = (true, "Ano")) ∧
    (py_lower (py_strip input) ∈ negative_words →
        validate_question q input false = (true, "Ne")) ∧
    (py_lower (py_strip input) ∉ affirm_words →
      py_lower (py_strip input) ∉ negative_words →
        (validate_question q input false).1 = false) ∧
    (∀ v, validate_question q input false = (true, v) → v = "Ano" ∨ v = "Ne") := by
  have hv : validate_question q input false =
      (if py_lower (py_strip input) ∈ affirm_words then (true, "Ano")
       else if py_lower (py_strip input) ∈ negative_words then (true, "Ne")
       else (false, "Prosím, odpovězte 'Ano' nebo 'Ne'")) := by
    simp [validate_question, ht]
  refine ⟨?_, ?_, ?_, ?_⟩
  · intro h
    rw [hv, if_pos h]
  · intro h
    rw [hv, if_neg (mem_negative_not_affirm _ h), if_pos h]
  · intro h1 h2
    rw [hv, if_neg h1, if_neg h2]
  · intro v hval
    rw [hv] at hval
    split_ifs at hval
    · injection hval with h1 h2
      exact Or.inl h2.symm
    · injection hval with h1 h2
      exact Or.inr h2.symm
    · injection hval with h1 h2
      exact absurd h1 (by decide)

/-- A concrete YES_NO question with a follow-up, for the C6 witness. -/
def c6_question : Question :=
  { index := 1, text := "smoker", question_type := QuestionType.yes_no,
    has_followup := true, followup_text := some "how much" }

/-- Witness for claim C6 at concrete inputs: "YES" is canonicalised to
"Ano", " Ne " (case and whitespace) to "Ne", and "maybe" is rejected. -/
theorem claim_C6_witness :
    validate_question c6_question "YES" false = (true, "Ano") ∧
    validate_question c6_question " Ne " false = (true, "Ne") ∧
    (validate_question c6_question "maybe" false).1 = false :=
  ⟨(claim_C6 c6_question "YES" rfl).1 (by decide),
   (claim_C6 c6_question " Ne " rfl).2.1 (by decide),
   (claim_C6 c6_question "maybe" rfl).2.2.1 (by decide) (by decide)⟩

/-! ## Claim C10 -/

/-- Claim C10: the sentinel-skip marker is the literal string "None".
For a TEXT question, the genuine user input "None" is accepted by the
validator unchanged, and the answer record it produces is identical (in
particular in `answer_text` and `answer_type`) to the record produced by
an explicit skip of the same question; the `skipped_text` statistics
aggregate therefore counts such a genuine answer. -/
theorem claim_C10 (catalog : Catalog) (s : BotState) (question_index : Nat) (q : Question)
    (hq : get_question catalog question_index = some q)
    (ht : q.question_type = QuestionType.text) :
    validate_answer catalog question_index "None" false = (true, "None") ∧
    (process_answer catalog s question_index "None").db.answers
      = s.db.answers ++ [⟨question_index, q.text, "None", "text", none, none⟩] ∧
    (handle_skip_text catalog s question_index).db.answers
      = s.db.answers ++ [⟨question_index, q.text, "None", "text", none, none⟩] ∧
    skipped_text_count (s.db.answers ++ [⟨question_index, q.text, "None", "text", none, none⟩])
      = skipped_text_count s.db.answers + 1 := by
  have h1 : validate_answer catalog question_index "None" false = (true, "None") := by
    simp [validate_answer, hq, validate_question, ht]
    decide
  refine ⟨h1, ?_, ?_, ?_⟩
  · simp [process_answer, h1, hq, send_question_answers, emit, save_answer]
  · simp [handle_skip_text, hq, send_question_answers, emit, save_answer]
  · simp [skipped_text_count, List.filter_append]

/-- Witness for claim C10 on a concrete TEXT question. -/
def c10_catalog : Catalog :=
  [ { index := 0, text := "brands" } ]

theorem claim_C10_witness :
    validate_answer c10_catalog 0 "None" false = (true, "None") ∧
    (process_answer c10_catalog initialBotState 0 "None").db.answers
      = [] ++ [⟨0, "brands", "None", "text", none, none⟩] ∧
    (handle_skip_text c10_catalog initialBotState 0).db.answers
      = [] ++ [⟨0, "brands", "None", "text", none, none⟩] ∧
    skipped_text_count ([] ++ [⟨0, "brands", "None", "text", none, none⟩])
      = skipped_text_count [] + 1 :=
  claim_C10 c10_catalog initialBotState 0 { index := 0, text := "brands" }
    (by decide) rfl

/-! ## Claim C1 -/

/-- Catalog for the C1 counterexample: a TEXT question, two YES_NO
questions with follow-ups, then a TEXT question. -/
def c1_catalog : Catalog :=
  [ { index := 0, text := "t0" },
    { index := 1, text := "q1", question_type := QuestionType.yes_no,
      has_followup := true, followup_text := some "f1" },
    { index := 2, text := "q2", question_type := QuestionType.yes_no,
      has_followup := true, followup_text := some "f2" },
    { index := 3, text := "t3" } ]

/-- Event trace for the C1 counterexample: start; answer the TEXT
question 0; answer question 1 affirmatively by button (entering
follow-up wait); press the still-live welcome start button again (its
payload is not guarded by the stale check), which re-sends question 0
and re-adds the user to `waiting_for_answer`; then answer the pending
follow-up. The user is now awaiting the YES_NO question 2 with
`waiting_for_answer` set, so free text reaches the validator. -/
def c1_events : List Event :=
  [ Event.buttonPress 100 CallbackData.start_questionnaire,
    Event.textMsg "hello" false,
    Event.buttonPress 2 (CallbackData.yes_no 1 true),
    Event.buttonPress 300 CallbackData.start_questionnaire,
    Event.textMsg "because" false ]

/-- Counterexample to claim C1: from the reachable state after
`c1_events` the user is awaiting question 2 (YES_NO, `has_followup`,
not completed, `waiting_for_answer` set, no follow-up pending), and the
validator accepts the free text "ano" with canonical value "Ano" — yet
processing the message leaves `waiting_for_followup = false` with no
`followup_question_index` and advances `current_question_index` to 3:
the free-text path of `_process_answer` never enters follow-up wait. -/
theorem claim_C1_counterexample :
    (run c1_catalog initialBotState c1_events).db.user.current_question_index = 2 ∧
    (run c1_catalog initialBotState c1_events).db.user.waiting_for_followup = false ∧
    (run c1_catalog initialBotState c1_events).db.user.questionnaire_completed = false ∧
    (run c1_catalog initialBotState c1_events).mem.waiting_for_answer = true ∧
    ((get_question c1_catalog 2).map (fun q => (q.question_type, q.has_followup)))
      = some (QuestionType.yes_no, true) ∧
    validate_answer c1_catalog 2 "ano" false = (true, "Ano") ∧
    (step c1_catalog (run c1_catalog initialBotState c1_events)
        (Event.textMsg "ano" false)).db.user.waiting_for_followup = false ∧
    (step c1_catalog (run c1_catalog initialBotState c1_events)
        (Event.textMsg "ano" false)).db.user.followup_question_index = none ∧
    (step c1_catalog (run c1_catalog initialBotState c1_events)
        (Event.textMsg "ano" false)).db.user.current_question_index = 3 := by
  decide

/-- Claim C1 as amended: an accepted free-text answer — for any question
type, including an affirmative answer to a YES_NO question with
`has_followup = true` — is recorded and the machine advances to index
`i + 1` without ever entering follow-up wait; follow-up wait for index
`i` is entered only on the keyboard path, when the affirmative answer
arrives as a button press handled by `_process_keyboard_answer`. -/
theorem claim_C1_amended :
    (∀ (catalog : Catalog) (s : BotState) (i : Nat) (q : Question) (body v : String),
        get_question catalog i = some q →
        validate_answer catalog i body false = (true, v) →
        s.db.user.waiting_for_followup = false →
        (process_answer catalog s i body).db.user.waiting_for_followup = false ∧
        (process_answer catalog s i body).db.user.current_question_index = i + 1 ∧
        (process_answer catalog s i body).db.answers
          = s.db.answers ++ [⟨i, q.text, v, "text", none, none⟩]) ∧
    (∀ (catalog : Catalog) (s : BotState) (i : Nat) (q : Question),
        get_question catalog i = some q →
        q.question_type = QuestionType.yes_no →
        q.has_followup = true →
        (process_keyboard_answer catalog s i "Ano").db.user.waiting_for_followup = true ∧
        (process_keyboard_answer catalog s i "Ano").db.user.followup_question_index = some i ∧
        (process_keyboard_answer catalog s i "Ano").db.answers
          = s.db.answers ++ [⟨i, q.text, "Ano", "text", none, none⟩]) := by
  constructor
  · intro catalog s i q body v hq hv hw
    refine ⟨?_, ?_, ?_⟩
    · simp [process_answer, hq, hv]
      apply send_question_wff
      simp [emit, save_answer, hw]
    · simp [process_answer, hq, hv, send_question_cur, emit, save_answer, hw]
    · simp [process_answer, hq, hv, send_question_answers, emit, save_answer]
  · intro catalog s i q hq ht hf
    simp [process_keyboard_answer, hq, ht, hf, emit, save_user_message,
      set_waiting_for_followup, save_answer]

/-- Witness for the amended claim C1, on a one-question YES_NO catalog
with a follow-up: the free-text path advances without follow-up wait,
the keyboard path enters follow-up wait. -/
def c1_witness_catalog : Catalog :=
  [ { index := 0, text := "q", question_type := QuestionType.yes_no,
      has_followup := true, followup_text := some "f" } ]

theorem claim_C1_amended_witness :
    ((process_answer c1_witness_catalog initialBotState 0 "ano").db.user.waiting_for_followup
        = false ∧
      (process_answer c1_witness_catalog initialBotState 0 "ano").db.user.current_question_index
        = 0 + 1 ∧
      (process_answer c1_witness_catalog initialBotState 0 "ano").db.answers
        = [] ++ [⟨0, "q", "Ano", "text", none, none⟩]) ∧
    ((process_keyboard_answer c1_witness_catalog initialBotState 0 "Ano").db.user.waiting_for_followup
        = true ∧
      (process_keyboard_answer c1_witness_catalog initialBotState 0 "Ano").db.user.followup_question_index
        = some 0 ∧
      (process_keyboard_answer c1_witness_catalog initialBotState 0 "Ano").db.answers
        = [] ++ [⟨0, "q", "Ano", "text", none, none⟩]) :=
  ⟨claim_C1_amended.1 c1_witness_catalog initialBotState 0
      { index := 0, text := "q", question_type := QuestionType.yes_no,
        has_followup := true, followup_text := some "f" }
      "ano" "Ano" (by decide) (by decide) rfl,
   claim_C1_amended.2 c1_witness_catalog initialBotState 0
      { index := 0, text := "q", question_type := QuestionType.yes_no,
        has_followup := true, followup_text := some "f" }
      (by decide) rfl rfl⟩

/-! ## Claim C4 -/

/-- Catalog for the C4 counterexample: a single YES_NO question. -/
def c4_catalog : Catalog :=
  [ { index := 0, text := "q0", question_type := QuestionType.yes_no } ]

/-- Start the questionnaire and answer the only question by button:
this completes the questionnaire, which clears the stored prompt id. -/
def c4_events : List Event :=
  [ Event.buttonPress 100 CallbackData.start_questionnaire,
    Event.buttonPress 0 (CallbackData.yes_no 0 true) ]

/-- Counterexample to claim C4: after the yes-button press is processed
once, completion has cleared the stored prompt-message id, so a replay
of the very same `ButtonPress` passes the stale check (`if
current_message_id and ...` is skipped when nothing is on file) and is
processed again, recording a second answer — replaying the same press
does not yield exactly one recorded answer. -/
theorem claim_C4_counterexample :
    (run c4_catalog initialBotState c4_events).db.answers.length = 1 ∧
    (run c4_catalog initialBotState c4_events).db.last_question_message = none ∧
    (step c4_catalog (run c4_catalog initialBotState c4_events)
        (Event.buttonPress 0 (CallbackData.yes_no 0 true))).db.answers.length = 2 := by
  decide

/-- Claim C4 as amended: an answer or skip `ButtonPress` is rejected as
stale — with no state mutation at all, only the stale alert — exactly
when a prompt-message id is on file and the pressed message id differs
from it. (When no id is on file, e.g. after completion cleared it, a
replayed press is processed again and records a second answer, so the
idempotence of replay holds only while an id that differs from the
replayed press remains on file.) -/
theorem claim_C4_amended (catalog : Catalog) (s : BotState) (message_id m : Nat)
    (data : CallbackData)
    (hb : isAnswerButton data = true)
    (hm : s.db.last_question_message = some m)
    (hne : message_id ≠ m) :
    (step catalog s (Event.buttonPress message_id data)).db = s.db ∧
    (step catalog s (Event.buttonPress message_id data)).mem = s.mem ∧
    (step catalog s (Event.buttonPress message_id data)).out
      = s.out ++ [Out.staleAlert] := by
  simp [step, handle_callback_query, hb, get_user_last_message, hm, hne, emit]

/-- The state after starting the C4 catalog: question 0 is prompted and
its message id 0 is on file. -/
def c4_started : BotState :=
  run c4_catalog initialBotState [Event.buttonPress 100 CallbackData.start_questionnaire]

/-- Witness for the amended claim C4: a press of an old button (message
id 77, differing from the stored id 0) mutates nothing. -/
theorem claim_C4_amended_witness :
    (step c4_catalog c4_started (Event.buttonPress 77 (CallbackData.yes_no 0 true))).db
      = c4_started.db ∧
    (step c4_catalog c4_started (Event.buttonPress 77 (CallbackData.yes_no 0 true))).mem
      = c4_started.mem ∧
    (step c4_catalog c4_started (Event.buttonPress 77 (CallbackData.yes_no 0 true))).out
      = c4_started.out ++ [Out.staleAlert] :=
  claim_C4_amended c4_catalog c4_started 77 0 (CallbackData.yes_no 0 true)
    rfl (by decide) (by decide)

/-! ## Claim C9 -/

theorem emit_cur (s : BotState) (o : Out) :
    (emit s o).db.user.current_question_index = s.db.user.current_question_index := rfl

/-- Catalog for the C9 counterexample: a TEXT question then a YES_NO
question. -/
def c9_catalog : Catalog :=
  [ { index := 0, text := "t0" },
    { index := 1, text := "q1", question_type := QuestionType.yes_no } ]

/-- Start, skip question 0 by its button, answer question 1 by button;
the questionnaire completes and the stored prompt id is cleared. -/
def c9_events : List Event :=
  [ Event.buttonPress 100 CallbackData.start_questionnaire,
    Event.buttonPress 0 (CallbackData.skip_text 0),
    Event.buttonPress 2 (CallbackData.yes_no 1 true) ]

/-- Counterexample to claim C9: the event sequence contains no reset,
yet redelivering the earlier skip press after completion (the stale
check passes because no prompt id is on file) runs `save_answer` for
index 0, which sets `current_question_index` to 1 — lowering it from 2. -/
theorem claim_C9_counterexample :
    (run c9_catalog initialBotState c9_events).db.user.current_question_index = 2 ∧
    (run c9_catalog initialBotState c9_events).db.last_question_message = none ∧
    (step c9_catalog (run c9_catalog initialBotState c9_events)
        (Event.buttonPress 0 (CallbackData.skip_text 0))).db.user.current_question_index
      = 1 := by
  decide

theorem save_answer_cur_cases (db : DB) (i : Nat) (qt a ty : String)
    (fid ft : Option String) :
    (save_answer db i qt a ty fid ft).user.current_question_index
        = db.user.current_question_index ∨
    (save_answer db i qt a ty fid ft).user.current_question_index = i + 1 := by
  unfold save_answer
  by_cases h : db.user.waiting_for_followup <;> simp [h]

theorem process_answer_cur_cases (catalog : Catalog) (s : BotState) (i : Nat)
    (body : String) :
    (process_answer catalog s i body).db.user.current_question_index
        = s.db.user.current_question_index ∨
    (process_answer catalog s i body).db.user.current_question_index = i + 1 := by
  unfold process_answer
  dsimp only
  by_cases hv : (validate_answer catalog i body false).1 = false
  · rw [if_pos hv]
    exact Or.inl rfl
  · rw [if_neg hv]
    cases hq : get_question catalog i with
    | none => exact Or.inl rfl
    | some q =>
        dsimp only
        rw [send_question_cur]
        exact save_answer_cur_cases s.db i q.text
          (validate_answer catalog i body false).2 "text" none none

theorem process_keyboard_answer_cur_cases (catalog : Catalog) (s : BotState) (i : Nat)
    (answer : String) :
    (process_keyboard_answer catalog s i answer).db.user.current_question_index
        = s.db.user.current_question_index ∨
    (process_keyboard_answer catalog s i answer).db.user.current_question_index = i + 1 := by
  unfold process_keyboard_answer
  cases hq : get_question catalog i with
  | none => exact Or.inl rfl
  | some q =>
      dsimp only
      split
      · exact save_answer_cur_cases s.db i q.text answer "text" none none
      · rw [send_question_cur]
        exact save_answer_cur_cases s.db i q.text answer "text" none none

theorem handle_skip_text_cur_cases (catalog : Catalog) (s : BotState) (i : Nat) :
    (handle_skip_text catalog s i).db.user.current_question_index
        = s.db.user.current_question_index ∨
    (handle_skip_text catalog s i).db.user.current_question_index = i + 1 := by
  unfold handle_skip_text
  cases hq : get_question catalog i with
  | none => exact Or.inl rfl
  | some q =>
      dsimp only
      rw [send_question_cur]
      exact save_answer_cur_cases s.db i q.text "None" "text" none none

theorem handle_skip_photo_cur_cases (catalog : Catalog) (s : BotState) (i : Nat) :
    (handle_skip_photo catalog s i).db.user.current_question_index
        = s.db.user.current_question_index ∨
    (handle_skip_photo catalog s i).db.user.current_question_index = i + 1 := by
  unfold handle_skip_photo
  cases hq : get_question catalog i with
  | none => exact Or.inl rfl
  | some q =>
      dsimp only
      rw [send_question_cur]
      exact save_answer_cur_cases s.db i q.text "None" "photo" none none

theorem handle_skip_followup_cur (catalog : Catalog) (s : BotState) (i : Nat) :
    (handle_skip_followup catalog s i).db.user.current_question_index
      = s.db.user.current_question_index := by
  unfold handle_skip_followup
  dsimp only
  rw [send_question_cur]
  rfl

theorem handle_message_rest_cur_ge (catalog : Catalog) (s : BotState)
    (t : String) (route : Bool) :
    s.db.user.current_question_index
      ≤ (handle_message_rest catalog s t route).db.user.current_question_index := by
  unfold handle_message_rest
  by_cases hwa : s.mem.waiting_for_answer
  · rw [if_pos hwa]
    cases hq : get_question catalog s.db.user.current_question_index with
    | none => exact Nat.le_refl _
    | some q =>
        dsimp only
        by_cases hr : route = true
        · rw [if_pos hr]
          exact Nat.le_refl _
        · rw [if_neg hr]
          rcases process_answer_cur_cases catalog s s.db.user.current_question_index t with
            h | h <;> omega
  · rw [if_neg hwa]
    by_cases hwp : s.mem.waiting_for_photo
    · rw [if_pos hwp]
      exact Nat.le_refl _
    · rw [if_neg hwp]
      exact Nat.le_refl _

theorem handle_message_cur_ge (catalog : Catalog) (s : BotState)
    (body : String) (route : Bool) :
    s.db.user.current_question_index
      ≤ (handle_message catalog s body route).db.user.current_question_index := by
  unfold handle_message create_or_update_user
  dsimp only
  split
  · exact Nat.le_refl _
  · split
    · exact Nat.le_refl _
    · split
      · split
        · exact Nat.le_refl _
        · split
          · exact Nat.le_refl _
          · split
            · exact Nat.le_refl _
            · split
              · exact Nat.le_refl _
              · split
                · rw [send_question_cur, emit_cur]
                  exact Nat.le_of_eq (save_followup_answer_cur s.db _ _).symm
                · exact handle_message_rest_cur_ge catalog _ _ _
      · exact handle_message_rest_cur_ge catalog _ _ _

theorem handle_photo_cur_ge (catalog : Catalog) (s : BotState) (file_id : String) :
    s.db.user.current_question_index
      ≤ (handle_photo catalog s file_id).db.user.current_question_index := by
  unfold handle_photo
  dsimp only
  split
  · exact Nat.le_refl _
  · split
    · exact Nat.le_refl _
    · split
      · exact Nat.le_refl _
      · rw [send_question_cur, emit_cur]
        simp [save_photo]

/-- The payload condition of the amended claim C9: an answer or skip
button press for question index `i` writes index `i + 1`, so it is
non-lowering exactly when the current index is at most `i + 1`. -/
def payload_ok (cur : Nat) : CallbackData → Prop
  | CallbackData.skip_photo i => cur ≤ i + 1
  | CallbackData.skip_text i => cur ≤ i + 1
  | CallbackData.yes_no i _ => cur ≤ i + 1
  | _ => True

/-- Events covered by the amended claim C9: everything except an
explicit reset, with answer/skip button payloads bounded as in
`payload_ok`. -/
def index_monotone_event (cur : Nat) : Event → Prop
  | Event.buttonPress _ data => payload_ok cur data
  | Event.restart => False
  | _ => True

theorem dispatch_callback_cur_ge (catalog : Catalog) (s : BotState)
    (data : CallbackData) (h : payload_ok s.db.user.current_question_index data) :
    s.db.user.current_question_index
      ≤ (dispatch_callback catalog s data).db.user.current_question_index := by
  cases data with
  | start_questionnaire =>
      rw [dispatch_callback, send_question_cur]
  | continue_questionnaire =>
      rw [dispatch_callback, send_question_cur]
  | finish_questionnaire =>
      rw [dispatch_callback, complete_questionnaire_cur, emit_cur]
  | skip_photo i =>
      rcases handle_skip_photo_cur_cases catalog s i with hc | hc
      · rw [dispatch_callback, hc]
      · rw [dispatch_callback, hc]
        exact h
  | skip_followup i =>
      rw [dispatch_callback, handle_skip_followup_cur]
  | skip_text i =>
      rcases handle_skip_text_cur_cases catalog s i with hc | hc
      · rw [dispatch_callback, hc]
      · rw [dispatch_callback, hc]
        exact h
  | yes_no i yes =>
      rcases process_keyboard_answer_cur_cases catalog
          (emit s (Out.message "answer stored")) i (if yes then "Ano" else "Ne") with hc | hc
      · rw [dispatch_callback, hc, emit_cur]
      · rw [dispatch_callback, hc]
        exact h

/-- Claim C9 as amended: `current_question_index` never decreases on a
text message, a photo message, a start/continue/finish press, a
skip-followup press, or any stale-rejected press; an answer or skip
button press with payload index `i` sets the index to `i + 1`, so such
a press lowers the index exactly when `i + 1` is below the current
value — which the stale-interaction guard fails to prevent only for
presses processed while no prompt-message id is on file (e.g. replays
after completion, as in the counterexample). -/
theorem claim_C9_amended (catalog : Catalog) (s : BotState) (e : Event)
    (h : index_monotone_event s.db.user.current_question_index e) :
    s.db.user.current_question_index
      ≤ (step catalog s e).db.user.current_question_index := by
  cases e with
  | textMsg body route => exact handle_message_cur_ge catalog s body route
  | photoMsg file_id => exact handle_photo_cur_ge catalog s file_id
  | restart => exact h.elim
  | buttonPress message_id data =>
      have hp : payload_ok s.db.user.current_question_index data := h
      show s.db.user.current_question_index
        ≤ (handle_callback_query catalog s message_id data).db.user.current_question_index
      unfold handle_callback_query
      by_cases hb : isAnswerButton data = true
      · rw [if_pos hb]
        cases hm : get_user_last_message s.db with
        | none => exact dispatch_callback_cur_ge catalog s data hp
        | some m =>
            dsimp only
            by_cases hne : message_id ≠ m
            · rw [if_pos hne]
              exact Nat.le_refl _
            · rw [if_neg hne]
              exact dispatch_callback_cur_ge catalog s data hp
      · rw [if_neg hb]
        exact dispatch_callback_cur_ge catalog s data hp

/-- The state after starting the C9 catalog: question 0 prompted,
current index 0. -/
def c9_started : BotState :=
  run c9_catalog initialBotState [Event.buttonPress 100 CallbackData.start_questionnaire]

/-- Witness for the amended claim C9: from the started state a fresh
skip press for question 0 does not lower the index. -/
theorem claim_C9_amended_witness :
    c9_started.db.user.current_question_index
      ≤ (step c9_catalog c9_started
          (Event.buttonPress 0 (CallbackData.skip_text 0))).db.user.current_question_index :=
  claim_C9_amended c9_catalog c9_started (Event.buttonPress 0 (CallbackData.skip_text 0))
    (show (0 : Nat) ≤ 0 + 1 by decide)
